import Mathlib

/-!
Verification development for the enrollment, capacity, prerequisite and
finance bookkeeping logic of a university administration application
(source files core/models.py and core/views.py).

Modelling conventions:
* Django model rows become Lean structures; primary keys are natural numbers.
* DecimalField amounts (2 decimal places) are represented as integers in
  cents; addition, subtraction and multiplication by an integer stay exact.
* Dates are represented as integers (day numbers); the comparison operators
  on dates in the source become integer comparisons.
* Database string comparison (the grade threshold filter grade lte) is the
  byte-lexicographic order, embedded below as charListLe / strLe.
* Each view function becomes a pure state transformer returning the new
  state together with an optional error; timezone.now is an explicit
  today argument.
-/

namespace UniAdmin

/-- Names bound at the top of core/models.py by its import statements
(lines 1 to 6 of the file).  The name Decimal is not among them, which is
what makes the null-program branch of FinanceRecord.save raise NameError. -/
def coreModelsImports : List String :=
  ["models", "settings", "MinValueValidator", "MaxValueValidator",
   "timezone", "timedelta"]

/-- Byte-lexicographic comparison of character lists, the order a SQL
backend applies to the grade lte lookup in register_course. -/
def charListLe : List Char → List Char → Bool
  | [], _ => true
  | _ :: _, [] => false
  | a :: as, b :: bs =>
    if a.toNat < b.toNat then true
    else if b.toNat < a.toNat then false
    else charListLe as bs

/-- Lexicographic less-or-equal on strings (SQL collation order). -/
def strLe (a b : String) : Bool := charListLe a.data b.data

/-- Program (core/models.py, class Program): fee fields, duration in
semesters, total credits required, and the curriculum related manager
(course codes of its ProgramCurriculum rows).  Fees are in cents. -/
structure Program where
  id : Nat
  duration : Int
  total_credits : Int
  tuition_fee : Int
  registration_fee : Int
  exam_fee : Int
  other_fees : Int
  curriculum : List String
  deriving DecidableEq

/-- Program.total_fee_per_semester: tuition_fee + exam_fee + other_fees. -/
def Program.total_fee_per_semester (p : Program) : Int :=
  p.tuition_fee + p.exam_fee + p.other_fees

/-- Program.total_program_fee: per-semester fees times duration plus the
one-time registration fee. -/
def Program.total_program_fee (p : Program) : Int :=
  p.total_fee_per_semester * p.duration + p.registration_fee

/-- FinanceRecord row (core/models.py, class FinanceRecord).  The program
foreign key is nullable.  Records live in a list ordered by id, matching
the Meta ordering by id that preserves insertion order. -/
structure FinanceRecord where
  student : Nat
  program : Option Nat
  transaction_type : String
  amount : Int
  balance_after : Int
  deriving DecidableEq

/-- The queryset FinanceRecord.objects.filter(student=..., program=...):
all ledger rows for one (student, program) pair, in insertion order. -/
def pairRecords (l : List FinanceRecord) (stu : Nat) (prog : Option Nat) :
    List FinanceRecord :=
  l.filter (fun r => r.student == stu && r.program == prog)

/-- Sign given to a prior record inside the total_paid sum of
FinanceRecord.save: amount for payment and refund, minus amount for
everything else (there is no third branch in that generator expression). -/
def priorSigned (t : String) (a : Int) : Int :=
  if t = "payment" ∨ t = "refund" then a else -a

/-- Sign given to the amount of the record being saved in
FinanceRecord.save: payment and refund add to total_paid, fee and
adjustment subtract, any other string falls through both branches. -/
def ownSigned (t : String) (a : Int) : Int :=
  if t = "payment" ∨ t = "refund" then a
  else if t = "fee" ∨ t = "adjustment" then -a
  else 0

/-- Python errors that the embedded save can raise. -/
inductive PyError where
  | nameErrorDecimal
  deriving DecidableEq

/-- FinanceRecord.save (core/models.py lines 428 to 451) for a new record:
when program is null the source evaluates the expression Decimal applied
to the string 0.00, and because Decimal is not among coreModelsImports
this raises NameError before any balance is computed; otherwise
balance_after is the total program fee minus the signed sum of all prior
records of the pair plus the signed own amount, and the row is appended. -/
def financeRecordSave (stu : Nat) (prog : Option Program) (ttype : String)
    (amount : Int) (ledger : List FinanceRecord) :
    Except PyError (List FinanceRecord) :=
  let feeE : Except PyError Int :=
    match prog with
    | some p => Except.ok p.total_program_fee
    | none =>
      if "Decimal" ∈ coreModelsImports then Except.ok 0
      else Except.error PyError.nameErrorDecimal
  match feeE with
  | Except.error e => Except.error e
  | Except.ok program_total_fee =>
    let progId := Option.map Program.id prog
    let prior := pairRecords ledger stu progId
    let total_paid :=
      (prior.map (fun r => priorSigned r.transaction_type r.amount)).sum
        + ownSigned ttype amount
    Except.ok (ledger ++
      [⟨stu, progId, ttype, amount, program_total_fee - total_paid⟩])

/-- Appending a sequence of finance transactions for one student and one
(non-null) program, each through financeRecordSave. -/
def appendTxns (stu : Nat) (p : Program) :
    List (String × Int) → List FinanceRecord → List FinanceRecord
  | [], ledger => ledger
  | (t, a) :: rest, ledger =>
    match financeRecordSave stu (some p) t a ledger with
    | Except.ok l2 => appendTxns stu p rest l2
    | Except.error _ => ledger

/-- The sign convention as the specification states it: payment and refund
amounts add to the paid total, fee and adjustment amounts subtract. -/
def claimSigned (t : String) (a : Int) : Int :=
  if t = "payment" ∨ t = "refund" then a
  else if t = "fee" ∨ t = "adjustment" then -a
  else 0

/-- Signed sum of a transaction list under the sign convention of the
specification. -/
def claimSignedSum (txns : List (String × Int)) : Int :=
  (txns.map (fun ta => claimSigned ta.1 ta.2)).sum

/-- The four declared TRANSACTION_TYPES choices of FinanceRecord. -/
def validTxTypes : List String := ["fee", "payment", "refund", "adjustment"]

/-- The pair ledger that the replay in FinanceRecord.save produces,
expressed record by record: given the signed total paid of the earlier
records, each new record carries balance total fee minus
(paid so far plus its own signed amount). -/
def specRecords (stu : Nat) (p : Program) :
    Int → List (String × Int) → List FinanceRecord
  | _, [] => []
  | paid, (t, a) :: rest =>
    ⟨stu, some p.id, t, a, p.total_program_fee - (paid + ownSigned t a)⟩ ::
      specRecords stu p (paid + priorSigned t a) rest

/-- The signed total the replay of FinanceRecord.save assigns to the
existing records of one (student, program) pair. -/
def paidOf (stu : Nat) (pid : Option Nat) (l : List FinanceRecord) : Int :=
  ((pairRecords l stu pid).map
    (fun r => priorSigned r.transaction_type r.amount)).sum

/-- CoursePrerequisite row (core/models.py): the code of the prerequisite
course, the mandatory flag, and the nullable minimum grade (a blank string
is as falsy as null in the source check if prereq.minimum_grade). -/
structure CoursePrerequisite where
  prerequisite_code : String
  is_mandatory : Bool
  minimum_grade : Option String
  deriving DecidableEq

/-- Course (core/models.py): identified by its code, with static credits
and its required_prerequisites related manager. -/
structure CourseInfo where
  code : String
  credits : Int
  required_prerequisites : List CoursePrerequisite
  deriving DecidableEq

/-- The date fields of a Semester row that the registration and drop views
consult. -/
structure SemesterDates where
  registration_start : Int
  registration_end : Int
  add_drop_deadline : Int
  deriving DecidableEq

/-- CourseOffering row (core/models.py): course, semester dates, capacity,
the cached enrolled counter and the active flag. -/
structure CourseOffering where
  course : CourseInfo
  semester : SemesterDates
  capacity : Int
  enrolled : Int
  is_active : Bool
  deriving DecidableEq

/-- CourseOffering.is_full: enrolled greater or equal capacity. -/
def CourseOffering.is_full (o : CourseOffering) : Bool :=
  o.capacity ≤ o.enrolled

/-- Enrollment row (core/models.py, class Enrollment). -/
structure EnrollmentRow where
  id : Nat
  student : Nat
  offering : Nat
  grade : String
  is_active : Bool
  status : String
  credits_earned : Option Int
  deriving DecidableEq

/-- Database state touched by the registration and drop views: the
CourseOffering table (pairs of primary key and row), the Enrollment table,
and the next Enrollment primary key. -/
structure School where
  offerings : List (Nat × CourseOffering)
  enrollments : List EnrollmentRow
  nextEnrollmentId : Nat
  deriving DecidableEq

/-- Lookup of a CourseOffering row by primary key. -/
def findOff : List (Nat × CourseOffering) → Nat → Option CourseOffering
  | [], _ => none
  | (i, o) :: rest, j => if i = j then some o else findOff rest j

/-- Update of the CourseOffering row with the given primary key. -/
def updOff (f : CourseOffering → CourseOffering) (j : Nat) :
    List (Nat × CourseOffering) → List (Nat × CourseOffering)
  | [] => []
  | (i, o) :: rest =>
    if i = j then (i, f o) :: rest else (i, o) :: updOff f j rest

/-- Lookup of an Enrollment row by primary key. -/
def findEnroll : List EnrollmentRow → Nat → Option EnrollmentRow
  | [], _ => none
  | e :: rest, j => if e.id = j then some e else findEnroll rest j

/-- Update of the Enrollment row with the given primary key. -/
def updEnroll (f : EnrollmentRow → EnrollmentRow) (j : Nat) :
    List EnrollmentRow → List EnrollmentRow
  | [] => []
  | e :: rest =>
    if e.id = j then f e :: rest else e :: updEnroll f j rest

/-- The course code reached from an enrollment through its offering
foreign key (enrollment dot course_offering dot course). -/
def courseCodeOf (s : School) (e : EnrollmentRow) : Option String :=
  (findOff s.offerings e.offering).map (fun o => o.course.code)

/-- Whether the Python truthiness test if prereq.minimum_grade passes:
null and the blank string are falsy. -/
def mgTruthy : Option String → Bool
  | none => false
  | some s => !(s == "")

/-- Whether one enrollment row satisfies the queryset of the prerequisite
check in register_course: same student, offering in the prerequisite
course, status completed, active, and, only when a truthy minimum grade is
set, grade lexicographically at most that minimum grade. -/
def prereqQualifies (s : School) (student : Nat) (p : CoursePrerequisite)
    (e : EnrollmentRow) : Bool :=
  e.student == student &&
  courseCodeOf s e == some p.prerequisite_code &&
  e.status == "completed" &&
  e.is_active &&
  (match p.minimum_grade with
   | none => true
   | some mg => if mg == "" then true else strLe e.grade mg)

/-- completed.exists() for one prerequisite in register_course. -/
def prereqSatisfied (s : School) (student : Nat)
    (p : CoursePrerequisite) : Bool :=
  s.enrollments.any (prereqQualifies s student p)

/-- The prerequisite loop of register_course (core/views.py lines 129 to
141): returns the code of the first mandatory prerequisite with no
qualifying enrollment, or none when the loop falls through. -/
def firstUnmetPrereq (s : School) (student : Nat) :
    List CoursePrerequisite → Option String
  | [] => none
  | p :: rest =>
    if !prereqSatisfied s student p && p.is_mandatory then
      some p.prerequisite_code
    else firstUnmetPrereq s student rest

/-- Error outcomes of the registration and drop views (the messages dot
error calls and the database integrity error of the unique constraint). -/
inductive RegError where
  | notFound
  | registrationNotStarted
  | addDropEnded
  | capacityExceeded
  | duplicateEnrollment
  | missingPrerequisite (code : String)
  | deadlinePassed
  | integrityError
  deriving DecidableEq

/-- The duplicate check of register_course: an active enrollment of this
student in this offering exists. -/
def hasActiveEnrollment (s : School) (student off : Nat) : Bool :=
  s.enrollments.any
    (fun e => e.student == student && e.offering == off && e.is_active)

/-- Whether any Enrollment row, active or not, exists for the pair: the
scope of the unique_together student course_offering constraint declared
in Enrollment.Meta (core/models.py lines 318 to 319). -/
def hasAnyEnrollmentRow (s : School) (student off : Nat) : Bool :=
  s.enrollments.any (fun e => e.student == student && e.offering == off)

/-- An offering row with d added to its enrolled counter. -/
def addEnrolled (d : Int) (o : CourseOffering) : CourseOffering :=
  ⟨o.course, o.semester, o.capacity, o.enrolled + d, o.is_active⟩

/-- Adding d to the enrolled counter of one offering row (the saves of
Enrollment.save and drop_course). -/
def bumpEnrolled (d : Int) (off : Nat) (s : School) : School :=
  ⟨updOff (addEnrolled d) off s.offerings, s.enrollments,
   s.nextEnrollmentId⟩

/-- The row mutation of drop_course: is_active to false, status to
withdrawn. -/
def markWithdrawn (r : EnrollmentRow) : EnrollmentRow :=
  ⟨r.id, r.student, r.offering, r.grade, false, "withdrawn",
   r.credits_earned⟩

/-- register_course (core/views.py lines 107 to 145).  The checks run in
source order: offering lookup with active flag, registration start date,
add and drop deadline, capacity, duplicate active enrollment, then the
prerequisite loop.  Enrollment.objects.create first runs Enrollment.save,
which increments the enrolled counter of the offering and saves it, and
then inserts the row; the insert violates the unique_together constraint
of Enrollment.Meta whenever any row for the pair already exists, in which
case the counter increment has already been persisted. -/
def register (today : Int) (student off : Nat) (s : School) :
    School × Option RegError :=
  match findOff s.offerings off with
  | none => (s, some RegError.notFound)
  | some o =>
    if !o.is_active then (s, some RegError.notFound)
    else if today < o.semester.registration_start then
      (s, some RegError.registrationNotStarted)
    else if o.semester.add_drop_deadline < today then
      (s, some RegError.addDropEnded)
    else if o.is_full then (s, some RegError.capacityExceeded)
    else if hasActiveEnrollment s student off then
      (s, some RegError.duplicateEnrollment)
    else
      match firstUnmetPrereq s student o.course.required_prerequisites with
      | some code => (s, some (RegError.missingPrerequisite code))
      | none =>
        let s1 := bumpEnrolled 1 off s
        if hasAnyEnrollmentRow s student off then
          (s1, some RegError.integrityError)
        else
          (⟨s1.offerings,
            s1.enrollments ++
              [⟨s.nextEnrollmentId, student, off, "", true, "registered",
                none⟩],
            s.nextEnrollmentId + 1⟩, none)

/-- drop_course (core/views.py lines 149 to 168): enrollment lookup
restricted to the requesting student, deadline check, then the row is
marked withdrawn and inactive and the enrolled counter of its offering is
decremented by one; the source never checks that the row was active. -/
def drop (today : Int) (student eid : Nat) (s : School) :
    School × Option RegError :=
  match findEnroll s.enrollments eid with
  | none => (s, some RegError.notFound)
  | some e =>
    if e.student ≠ student then (s, some RegError.notFound)
    else
      match findOff s.offerings e.offering with
      | none => (s, some RegError.notFound)
      | some o =>
        if o.semester.add_drop_deadline < today then
          (s, some RegError.deadlinePassed)
        else
          let s1 : School :=
            ⟨s.offerings, updEnroll markWithdrawn eid s.enrollments,
             s.nextEnrollmentId⟩
          (bumpEnrolled (-1) e.offering s1, none)

/-- One request against the registration or drop view. -/
inductive Op where
  | registerOp (today : Int) (student off : Nat)
  | dropOp (today : Int) (student eid : Nat)
  deriving DecidableEq

/-- Executing one operation. -/
def applyOp : Op → School → School × Option RegError
  | Op.registerOp t st off, s => register t st off s
  | Op.dropOp t st eid, s => drop t st eid s

/-- Executing a list of operations; the flag is true when every operation
returned no error. -/
def runOps : List Op → School → School × Bool
  | [], s => (s, true)
  | op :: rest, s =>
    let r := applyOp op s
    let r2 := runOps rest r.1
    (r2.1, r.2.isNone && r2.2)

/-- Whether an operation is either a registration or a drop whose target
row is active in the current state. -/
def dropTargetsActive : Op → School → Bool
  | Op.registerOp _ _ _, _ => true
  | Op.dropOp _ _ eid, s =>
    match findEnroll s.enrollments eid with
    | some e => e.is_active
    | none => false

/-- Executing a list of operations; the flag also requires every drop to
target a row that is active at the moment of the drop. -/
def runOpsChecked : List Op → School → School × Bool
  | [], s => (s, true)
  | op :: rest, s =>
    let r := applyOp op s
    let r2 := runOpsChecked rest r.1
    (r2.1, (r.2.isNone && dropTargetsActive op s) && r2.2)

/-- Number of active Enrollment rows referencing one offering, in a list
of rows. -/
def countActiveL (l : List EnrollmentRow) (off : Nat) : Nat :=
  (l.filter (fun e => e.offering == off && e.is_active)).length

/-- Number of active Enrollment rows referencing one offering. -/
def countActive (s : School) (off : Nat) : Nat :=
  countActiveL s.enrollments off

/-- The intended counter invariant: the enrolled field of the offering
equals the number of active Enrollment rows referencing it (vacuously true
when the offering id does not exist). -/
def enrolledMatches (s : School) (off : Nat) : Bool :=
  match findOff s.offerings off with
  | some o => o.enrolled == (countActive s off : Int)
  | none => true

/-- Python truthiness fallback x or y on a nullable integer: null and
zero both fall back to the default (the expression
enrollment.credits_earned or enrollment.course_offering.course.credits in
ProgramEnrollment.credits_completed). -/
def pyOrInt : Option Int → Int → Int
  | none, d => d
  | some n, d => if n = 0 then d else n

/-- The contribution of one enrollment row to
ProgramEnrollment.credits_completed: rows of this student with status
completed whose course is in the program curriculum contribute
credits_earned, falling back (by Python truthiness) to the static credits
of the course; every other row contributes nothing. -/
def creditContribution (s : School) (student : Nat)
    (curriculum : List String) (e : EnrollmentRow) : Int :=
  match findOff s.offerings e.offering with
  | none => 0
  | some o =>
    if e.student == student && e.status == "completed" &&
        curriculum.contains o.course.code then
      pyOrInt e.credits_earned o.course.credits
    else 0

/-- ProgramEnrollment.credits_completed (core/models.py lines 367 to 376):
sum of the contributions over the Enrollment table. -/
def credits_completed (s : School) (student : Nat)
    (curriculum : List String) : Int :=
  (s.enrollments.map (creditContribution s student curriculum)).sum

/-- ProgramEnrollment.progress_percentage (core/models.py lines 378 to
381): credits completed over total credits times one hundred when
total_credits is positive, else zero.  The Python true division is
embedded as division in the rationals. -/
def progress_percentage (s : School) (student : Nat) (p : Program) : ℚ :=
  if 0 < p.total_credits then
    ((credits_completed s student p.curriculum : ℚ) /
      (p.total_credits : ℚ)) * 100
  else 0

/-- Credits completed as claim C8 words it: credits_earned is used
whenever it is present (even when it is zero), with the fallback to the
static course credits only when it is absent. -/
def claimCreditContribution (s : School) (student : Nat)
    (curriculum : List String) (e : EnrollmentRow) : Int :=
  match findOff s.offerings e.offering with
  | none => 0
  | some o =>
    if e.student == student && e.status == "completed" &&
        curriculum.contains o.course.code then
      match e.credits_earned with
      | some n => n
      | none => o.course.credits
    else 0

/-- Sum of the claim C8 contributions over the Enrollment table. -/
def claimCreditsCompleted (s : School) (student : Nat)
    (curriculum : List String) : Int :=
  (s.enrollments.map (claimCreditContribution s student curriculum)).sum

/-- Credits completed as the amended claim C8 words it: over the rows of
this student with status completed whose course appears in the
curriculum, take credits_earned when it is present and nonzero and the
static course credits otherwise. -/
def amendedCreditsCompleted (s : School) (student : Nat)
    (curriculum : List String) : Int :=
  (s.enrollments.filterMap (fun e =>
    match findOff s.offerings e.offering with
    | none => none
    | some o =>
      if e.student == student && e.status == "completed" &&
          curriculum.contains o.course.code then
        some (match e.credits_earned with
          | some n => if n = 0 then o.course.credits else n
          | none => o.course.credits)
      else none)).sum

section Fixtures

/-- C1 counterexample offering: one seat taken out of thirty. -/
def c1Off : CourseOffering :=
  ⟨⟨"CS101", 3, []⟩, ⟨0, 10, 10⟩, 30, 1, true⟩

/-- C1 counterexample state: the counter matches the one active row. -/
def c1State : School :=
  ⟨[(1, c1Off)], [⟨1, 1, 1, "", true, "registered", none⟩], 2⟩

/-- C1 counterexample operations: the same enrollment dropped twice,
both times before the deadline. -/
def c1Ops : List Op := [Op.dropOp 5 1 1, Op.dropOp 5 1 1]

/-- C1 witness offering: empty and active. -/
def c1wOff : CourseOffering :=
  ⟨⟨"CS102", 3, []⟩, ⟨0, 10, 10⟩, 30, 0, true⟩

/-- C1 witness state. -/
def c1wState : School := ⟨[(1, c1wOff)], [], 1⟩

/-- C1 witness operations: a successful registration followed by a drop
of the (active) resulting enrollment. -/
def c1wOps : List Op := [Op.registerOp 5 7 1, Op.dropOp 6 7 1]

/-- C2 witness program: the worked example of the specification, tuition
1000, exam 100, other 0, registration 50, duration 2 semesters. -/
def c2Prog : Program := ⟨1, 2, 120, 1000, 50, 100, 0, []⟩

/-- C3 counterexample offering: open seats, open window. -/
def c3Off : CourseOffering :=
  ⟨⟨"CS201", 3, []⟩, ⟨0, 10, 10⟩, 30, 0, true⟩

/-- C3 counterexample state: the student holds a withdrawn, inactive row
for the offering, so the unique constraint still covers the pair. -/
def c3State : School :=
  ⟨[(1, c3Off)], [⟨1, 1, 1, "", false, "withdrawn", none⟩], 2⟩

/-- C3 witness prerequisite offering (the completed course lives here). -/
def c3wPrereqOff : CourseOffering :=
  ⟨⟨"CS100", 3, []⟩, ⟨0, 10, 10⟩, 30, 1, true⟩

/-- C3 witness target offering: one mandatory prerequisite with a
minimum grade. -/
def c3wOff : CourseOffering :=
  ⟨⟨"CS210", 3, [⟨"CS100", true, some "C"⟩]⟩, ⟨0, 10, 10⟩, 30, 0, true⟩

/-- C3 witness state: student 9 completed CS100 with grade B. -/
def c3wState : School :=
  ⟨[(3, c3wOff), (4, c3wPrereqOff)],
   [⟨1, 9, 4, "B", true, "completed", some 3⟩], 2⟩

/-- C4 failing-input offering. -/
def c4Off : CourseOffering :=
  ⟨⟨"CS301", 3, []⟩, ⟨0, 20, 20⟩, 25, 3, true⟩

/-- C4 failing-input state: student 2 holds a withdrawn, inactive row
for offering 7 from an earlier register and drop. -/
def c4State : School :=
  ⟨[(7, c4Off)], [⟨5, 2, 7, "", false, "withdrawn", none⟩], 6⟩

/-- C5 witness offering: one mandatory prerequisite nobody completed. -/
def c5wOff : CourseOffering :=
  ⟨⟨"CS220", 3, [⟨"CS110", true, none⟩]⟩, ⟨0, 10, 10⟩, 30, 0, true⟩

/-- C5 witness state. -/
def c5wState : School := ⟨[(2, c5wOff)], [], 1⟩

/-- C6 witness offering. -/
def c6wOff : CourseOffering :=
  ⟨⟨"CS401", 3, []⟩, ⟨0, 15, 15⟩, 30, 1, true⟩

/-- C6 witness state: student 3 has an active enrollment, row 4. -/
def c6wState : School :=
  ⟨[(1, c6wOff)], [⟨4, 3, 1, "", true, "registered", none⟩], 5⟩

/-- C7 counterexample offering: capacity one and already full. -/
def c7Off : CourseOffering :=
  ⟨⟨"CS150", 3, []⟩, ⟨0, 10, 10⟩, 1, 1, true⟩

/-- C7 counterexample state: the one seat is held by student 1, who
attempts to register again. -/
def c7State : School :=
  ⟨[(1, c7Off)], [⟨1, 1, 1, "", true, "registered", none⟩], 2⟩

/-- C7 witness offering: seats remain. -/
def c7wOff : CourseOffering :=
  ⟨⟨"CS160", 3, []⟩, ⟨0, 10, 10⟩, 10, 1, true⟩

/-- C7 witness state: student 5 already actively enrolled. -/
def c7wState : School :=
  ⟨[(2, c7wOff)], [⟨1, 5, 2, "", true, "registered", none⟩], 2⟩

/-- C8 counterexample offering. -/
def c8Off : CourseOffering :=
  ⟨⟨"CS101", 3, []⟩, ⟨0, 10, 10⟩, 30, 1, true⟩

/-- C8 counterexample state: a completed enrollment whose credits_earned
is present but zero, for a three-credit course. -/
def c8State : School :=
  ⟨[(1, c8Off)], [⟨1, 1, 1, "A", true, "completed", some 0⟩], 2⟩

/-- C8 counterexample program: three total credits, CS101 in the
curriculum. -/
def c8Prog : Program := ⟨1, 2, 3, 0, 0, 0, 0, ["CS101"]⟩

/-- C10 witness offering for the prerequisite course. -/
def c10wOff : CourseOffering :=
  ⟨⟨"CS100", 3, []⟩, ⟨0, 10, 10⟩, 30, 1, true⟩

/-- C10 witness state: student 6 completed the course, active row, blank
grade. -/
def c10wState : School :=
  ⟨[(1, c10wOff)], [⟨1, 6, 1, "", true, "completed", none⟩], 2⟩

end Fixtures

/-! Helper lemmas. -/

theorem strLe_empty_left (x : String) : strLe "" x = true := rfl

theorem hasActive_imp_hasAny (s : School) (student off : Nat)
    (h : hasActiveEnrollment s student off = true) :
    hasAnyEnrollmentRow s student off = true := by
  rcases List.any_eq_true.mp h with ⟨e, he, hcond⟩
  refine List.any_eq_true.mpr ⟨e, he, ?_⟩
  simp only [Bool.and_eq_true] at hcond
  simp [hcond.1.1, hcond.1.2]

theorem hasAny_false_imp_hasActive_false (s : School) (student off : Nat)
    (h : hasAnyEnrollmentRow s student off = false) :
    hasActiveEnrollment s student off = false := by
  by_contra hne
  have := hasActive_imp_hasAny s student off
    (Bool.of_not_eq_false hne)
  rw [h] at this
  exact Bool.false_ne_true this

/-- Claim C9: appending a FinanceRecord with a null program raises
NameError (the name Decimal is not imported in core/models.py) before any
balance is computed, and a save with a non-null program never reaches that
branch, so it never raises that error. -/
theorem C9_null_program_raises_name_error :
    (∀ (stu : Nat) (ttype : String) (amount : Int)
        (ledger : List FinanceRecord),
      financeRecordSave stu none ttype amount ledger =
        Except.error PyError.nameErrorDecimal) ∧
    (∀ (stu : Nat) (p : Program) (ttype : String) (amount : Int)
        (ledger : List FinanceRecord),
      financeRecordSave stu (some p) ttype amount ledger ≠
        Except.error PyError.nameErrorDecimal) := by
  constructor
  · intro stu ttype amount ledger
    rfl
  · intro stu p ttype amount ledger h
    simp [financeRecordSave] at h

/-- Claim C10: a completed, active enrollment in the prerequisite course
whose grade is the blank string qualifies against every minimum grade
threshold, because the blank string is lexicographically at most every
grade string, so the prerequisite check accepts it. -/
theorem C10_blank_grade_meets_any_threshold (s : School) (student : Nat)
    (code mg : String) (m : Bool) (e : EnrollmentRow)
    (he : e ∈ s.enrollments) (hstu : e.student = student)
    (hcourse : courseCodeOf s e = some code)
    (hst : e.status = "completed") (hact : e.is_active = true)
    (hgr : e.grade = "") :
    prereqSatisfied s student ⟨code, m, some mg⟩ = true := by
  refine List.any_eq_true.mpr ⟨e, he, ?_⟩
  unfold prereqQualifies
  simp only [hstu, hcourse, hst, hact, hgr]
  simp [strLe_empty_left]

/-- Witness for claim C10 at a concrete state. -/
theorem C10_witness :
    prereqSatisfied c10wState 6 ⟨"CS100", true, some "A"⟩ = true :=
  C10_blank_grade_meets_any_threshold c10wState 6 "CS100" "A" true
    ⟨1, 6, 1, "", true, "completed", none⟩
    (by decide) (by decide) (by decide) (by decide) (by decide) (by decide)

/-- Counterexample to claim C7 as stated: on a full offering whose one
seat is held by the very student who registers again, the second attempt
fails with CapacityExceeded, not DuplicateEnrollment, because the
capacity check runs before the duplicate check in register_course. -/
theorem C7_counterexample :
    hasActiveEnrollment c7State 1 1 = true ∧
    (register 5 1 1 c7State).2 = some RegError.capacityExceeded ∧
    (register 5 1 1 c7State).2 ≠ some RegError.duplicateEnrollment := by
  refine ⟨by decide, by decide, by decide⟩

/-- Claim C7 as amended: when the offering is found and active, the
registration window is open and the offering is not full, a registration
attempt by a student who already has an active enrollment in it fails
with DuplicateEnrollment and leaves the state unchanged, so no new
Enrollment is created and the enrolled counter is untouched. -/
theorem C7_duplicate_enrollment (s : School) (today : Int)
    (student off : Nat) (o : CourseOffering)
    (hfind : findOff s.offerings off = some o)
    (hact : o.is_active = true)
    (hstart : o.semester.registration_start ≤ today)
    (hend : today ≤ o.semester.add_drop_deadline)
    (hnotfull : o.is_full = false)
    (hdup : hasActiveEnrollment s student off = true) :
    register today student off s = (s, some RegError.duplicateEnrollment) := by
  have h1 : ¬ today < o.semester.registration_start := not_lt.mpr hstart
  have h2 : ¬ o.semester.add_drop_deadline < today := not_lt.mpr hend
  unfold register
  rw [hfind]
  simp [hact, h1, h2, hnotfull, hdup]

/-- Witness for the amended claim C7 at a concrete state. -/
theorem C7_witness :
    register 5 5 2 c7wState = (c7wState, some RegError.duplicateEnrollment) :=
  C7_duplicate_enrollment c7wState 5 5 2 c7wOff (by decide) (by decide)
    (by decide) (by decide) (by decide) (by decide)

theorem findOff_updOff (f : CourseOffering → CourseOffering) (j k : Nat)
    (l : List (Nat × CourseOffering)) :
    findOff (updOff f j l) k =
      if j = k then (findOff l k).map f else findOff l k := by
  induction l with
  | nil => simp [updOff, findOff]
  | cons hd tl ih =>
    obtain ⟨i, o⟩ := hd
    by_cases hij : i = j
    · by_cases hik : i = k
      · have hjk : j = k := hij.symm.trans hik
        simp [updOff, findOff, hij, hik, hjk]
      · have hjk : ¬ j = k := fun h => hik (hij.trans h)
        simp [updOff, findOff, hij, hik, hjk]
    · by_cases hik : i = k
      · have hjk : ¬ j = k := fun h => hij (hik.trans h.symm)
        have hkj : ¬ k = j := fun h => hjk h.symm
        simp [updOff, findOff, hij, hik, hjk, hkj]
      · simp [updOff, findOff, hij, hik, ih]

theorem findEnroll_updEnroll (f : EnrollmentRow → EnrollmentRow)
    (hid : ∀ e, (f e).id = e.id) (j k : Nat) (l : List EnrollmentRow) :
    findEnroll (updEnroll f j l) k =
      if j = k then (findEnroll l k).map f else findEnroll l k := by
  induction l with
  | nil => simp [updEnroll, findEnroll]
  | cons e tl ih =>
    by_cases hij : e.id = j
    · by_cases hik : e.id = k
      · have hjk : j = k := hij.symm.trans hik
        simp [updEnroll, findEnroll, hij, hik, hjk, hid]
      · have hjk : ¬ j = k := fun h => hik (hij.trans h)
        simp [updEnroll, findEnroll, hij, hik, hjk, hid]
    · by_cases hik : e.id = k
      · have hjk : ¬ j = k := fun h => hij (hik.trans h.symm)
        have hkj : ¬ k = j := fun h => hjk h.symm
        simp [updEnroll, findEnroll, hij, hik, hjk, hkj]
      · simp [updEnroll, findEnroll, hij, hik, ih]

/-- Claim C6: a drop attempted strictly after the add and drop deadline
of the semester of the enrollment fails with DeadlinePassed and leaves
the whole state (counter, status, active flag) unchanged; a drop on or
before the deadline marks the row withdrawn and inactive, keeps its other
fields, and decrements the enrolled counter of its offering by exactly
one. -/
theorem C6_drop_deadline (s : School) (today : Int) (student eid : Nat)
    (e : EnrollmentRow) (o : CourseOffering)
    (he : findEnroll s.enrollments eid = some e)
    (hstu : e.student = student)
    (ho : findOff s.offerings e.offering = some o) :
    if o.semester.add_drop_deadline < today then
      drop today student eid s = (s, some RegError.deadlinePassed)
    else
      ((drop today student eid s).2 = none ∧
       (drop today student eid s).1.enrollments =
         updEnroll markWithdrawn eid s.enrollments ∧
       findEnroll (drop today student eid s).1.enrollments eid =
         some (markWithdrawn e) ∧
       findOff (drop today student eid s).1.offerings e.offering =
         some (addEnrolled (-1) o)) := by
  by_cases hP : o.semester.add_drop_deadline < today
  · simp only [if_pos hP]
    unfold drop
    rw [he]
    simp [hstu, ho, hP]
  · simp only [if_neg hP]
    have hdrop : drop today student eid s =
        (bumpEnrolled (-1) e.offering
          ⟨s.offerings, updEnroll markWithdrawn eid s.enrollments,
           s.nextEnrollmentId⟩, none) := by
      unfold drop
      rw [he]
      simp [hstu, ho, hP]
    rw [hdrop]
    refine ⟨rfl, rfl, ?_, ?_⟩
    · show findEnroll (updEnroll markWithdrawn eid s.enrollments) eid =
        some (markWithdrawn e)
      rw [findEnroll_updEnroll markWithdrawn (fun _ => rfl) eid eid]
      simp [he]
    · show findOff (updOff (addEnrolled (-1)) e.offering s.offerings)
        e.offering = some (addEnrolled (-1) o)
      rw [findOff_updOff]
      simp [ho]

/-- Witness for claim C6 at a concrete state (deadline already passed). -/
theorem C6_witness :
    if c6wOff.semester.add_drop_deadline < 20 then
      drop 20 3 4 c6wState = (c6wState, some RegError.deadlinePassed)
    else
      ((drop 20 3 4 c6wState).2 = none ∧
       (drop 20 3 4 c6wState).1.enrollments =
         updEnroll markWithdrawn 4 c6wState.enrollments ∧
       findEnroll (drop 20 3 4 c6wState).1.enrollments 4 =
         some (markWithdrawn ⟨4, 3, 1, "", true, "registered", none⟩) ∧
       findOff (drop 20 3 4 c6wState).1.offerings 1 =
         some (addEnrolled (-1) c6wOff)) :=
  C6_drop_deadline c6wState 20 3 4 ⟨4, 3, 1, "", true, "registered", none⟩
    c6wOff (by decide) (by decide) (by decide)

theorem firstUnmet_eq_none_iff (s : School) (student : Nat)
    (ps : List CoursePrerequisite) :
    firstUnmetPrereq s student ps = none ↔
      ∀ p ∈ ps, p.is_mandatory = true →
        prereqSatisfied s student p = true := by
  induction ps with
  | nil => simp [firstUnmetPrereq]
  | cons p rest ih =>
    unfold firstUnmetPrereq
    cases hsat : prereqSatisfied s student p with
    | true => simp [hsat, ih, List.forall_mem_cons]
    | false =>
      cases hm : p.is_mandatory with
      | true => simp [hsat, hm, List.forall_mem_cons]
      | false => simp [hsat, hm, ih, List.forall_mem_cons]

/-- Counterexample to claim C3 as stated: the registration window is
open, the student has no active enrollment, there are no prerequisites
and the offering is far from full, yet registration does not succeed,
because a withdrawn (inactive) row for the same pair makes the insert
violate the unique_together constraint of Enrollment.Meta. -/
theorem C3_counterexample :
    hasActiveEnrollment c3State 1 1 = false ∧
    findOff c3State.offerings 1 = some c3Off ∧
    c3Off.is_active = true ∧
    c3Off.semester.registration_start ≤ (5 : Int) ∧
    (5 : Int) ≤ c3Off.semester.add_drop_deadline ∧
    c3Off.is_full = false ∧
    c3Off.course.required_prerequisites = [] ∧
    (register 5 1 1 c3State).2 = some RegError.integrityError := by
  decide

/-- Claim C3 as amended: with the window open, no Enrollment row at all
(active or not) for the pair, and every mandatory prerequisite satisfied,
registration fails with CapacityExceeded and changes nothing when
enrolled is at least capacity, and otherwise succeeds, appending one
active registered Enrollment row and incrementing enrolled by exactly
one. -/
theorem C3_capacity_gate (s : School) (today : Int) (student off : Nat)
    (o : CourseOffering)
    (hfind : findOff s.offerings off = some o)
    (hact : o.is_active = true)
    (hstart : o.semester.registration_start ≤ today)
    (hend : today ≤ o.semester.add_drop_deadline)
    (hnorow : hasAnyEnrollmentRow s student off = false)
    (hprereq : ∀ p ∈ o.course.required_prerequisites,
        p.is_mandatory = true → prereqSatisfied s student p = true) :
    if o.is_full = true then
      register today student off s = (s, some RegError.capacityExceeded)
    else
      ((register today student off s).2 = none ∧
       findOff (register today student off s).1.offerings off =
         some (addEnrolled 1 o) ∧
       (register today student off s).1.enrollments =
         s.enrollments ++ [⟨s.nextEnrollmentId, student, off, "", true,
           "registered", none⟩]) := by
  have h1 : ¬ today < o.semester.registration_start := not_lt.mpr hstart
  have h2 : ¬ o.semester.add_drop_deadline < today := not_lt.mpr hend
  have hdup : hasActiveEnrollment s student off = false :=
    hasAny_false_imp_hasActive_false s student off hnorow
  have hfu : firstUnmetPrereq s student o.course.required_prerequisites
      = none := (firstUnmet_eq_none_iff s student _).mpr hprereq
  by_cases hfull : o.is_full = true
  · rw [if_pos hfull]
    unfold register
    rw [hfind]
    simp [hact, h1, h2, hfull]
  · rw [if_neg hfull]
    have hfull2 : o.is_full = false := by
      revert hfull; cases o.is_full <;> simp
    have hreg : register today student off s =
        (⟨updOff (addEnrolled 1) off s.offerings,
          s.enrollments ++ [⟨s.nextEnrollmentId, student, off, "", true,
            "registered", none⟩],
          s.nextEnrollmentId + 1⟩, none) := by
      unfold register
      rw [hfind]
      simp [hact, h1, h2, hfull2, hdup, hfu, hnorow, bumpEnrolled]
    rw [hreg]
    refine ⟨rfl, ?_, rfl⟩
    show findOff (updOff (addEnrolled 1) off s.offerings) off =
      some (addEnrolled 1 o)
    rw [findOff_updOff]
    simp [hfind]

/-- Witness for the amended claim C3 at a concrete state with one
satisfied mandatory prerequisite and free seats. -/
theorem C3_witness :
    if c3wOff.is_full = true then
      register 5 9 3 c3wState = (c3wState, some RegError.capacityExceeded)
    else
      ((register 5 9 3 c3wState).2 = none ∧
       findOff (register 5 9 3 c3wState).1.offerings 3 =
         some (addEnrolled 1 c3wOff) ∧
       (register 5 9 3 c3wState).1.enrollments =
         c3wState.enrollments ++ [⟨c3wState.nextEnrollmentId, 9, 3, "",
           true, "registered", none⟩]) :=
  C3_capacity_gate c3wState 5 9 3 c3wOff (by decide) (by decide)
    (by decide) (by decide) (by decide) (by decide)

/-- Claim C4, the failing input: student 2 holds only a withdrawn,
inactive enrollment for offering 7, every view-level check passes, yet
the insert of the new row violates the unconditional unique_together
constraint of Enrollment.Meta, so no new Enrollment row is created (and
the enrolled counter, already saved by Enrollment.save, is left
incremented without a matching row). -/
theorem C4_reregistration_hits_unique_constraint :
    hasActiveEnrollment c4State 2 7 = false ∧
    (∃ e ∈ c4State.enrollments, e.student = 2 ∧ e.offering = 7 ∧
      e.is_active = false ∧ e.status = "withdrawn") ∧
    (register 6 2 7 c4State).2 = some RegError.integrityError ∧
    (register 6 2 7 c4State).1.enrollments = c4State.enrollments ∧
    findOff (register 6 2 7 c4State).1.offerings 7 =
      some (addEnrolled 1 c4Off) := by
  decide

theorem prereqSatisfied_iff (s : School) (student : Nat)
    (p : CoursePrerequisite) :
    prereqSatisfied s student p = true ↔
      ∃ e ∈ s.enrollments, e.student = student ∧
        courseCodeOf s e = some p.prerequisite_code ∧
        e.status = "completed" ∧ e.is_active = true ∧
        (∀ mg, p.minimum_grade = some mg → mg ≠ "" →
          strLe e.grade mg = true) := by
  unfold prereqSatisfied
  rw [List.any_eq_true]
  constructor
  · rintro ⟨e, he, hq⟩
    refine ⟨e, he, ?_⟩
    unfold prereqQualifies at hq
    simp only [Bool.and_eq_true, beq_iff_eq] at hq
    obtain ⟨⟨⟨⟨h1, h2⟩, h3⟩, h4⟩, h5⟩ := hq
    refine ⟨h1, h2, h3, h4, ?_⟩
    intro mg hmg hne
    rw [hmg] at h5
    have h6 : (if mg = "" then true else strLe e.grade mg) = true := h5
    rwa [if_neg hne] at h6
  · rintro ⟨e, he, h1, h2, h3, h4, h5⟩
    refine ⟨e, he, ?_⟩
    unfold prereqQualifies
    cases hmg : p.minimum_grade with
    | none => simp [h1, h2, h3, h4]
    | some mg =>
      by_cases hne : mg = ""
      · simp [h1, h2, h3, h4, hne]
      · have hbeq : (mg == "") = false := beq_eq_false_iff_ne.mpr hne
        simp [h1, h2, h3, h4, hbeq, h5 mg hmg hne]

theorem firstUnmet_eq_find (s : School) (student : Nat)
    (ps : List CoursePrerequisite) :
    firstUnmetPrereq s student ps =
      (ps.find? (fun p => !prereqSatisfied s student p &&
        p.is_mandatory)).map (fun p => p.prerequisite_code) := by
  induction ps with
  | nil => rfl
  | cons p rest ih =>
    unfold firstUnmetPrereq
    cases hc : (!prereqSatisfied s student p && p.is_mandatory) with
    | true => simp [List.find?, hc]
    | false => simp [List.find?, hc, ih]

theorem firstUnmet_isSome_iff (s : School) (student : Nat)
    (ps : List CoursePrerequisite) :
    (∃ c, firstUnmetPrereq s student ps = some c) ↔
      ∃ p ∈ ps, p.is_mandatory = true ∧
        prereqSatisfied s student p = false := by
  induction ps with
  | nil => simp [firstUnmetPrereq]
  | cons p rest ih =>
    unfold firstUnmetPrereq
    cases hsat : prereqSatisfied s student p with
    | true => simp [hsat, ih]
    | false =>
      cases hm : p.is_mandatory with
      | true => simp [hsat, hm]
      | false => simp [hsat, hm, ih]

theorem register_missing_iff (s : School) (today : Int)
    (student off : Nat) (o : CourseOffering)
    (hfind : findOff s.offerings off = some o)
    (hact : o.is_active = true)
    (hstart : o.semester.registration_start ≤ today)
    (hend : today ≤ o.semester.add_drop_deadline)
    (hnotfull : o.is_full = false)
    (hnodup : hasActiveEnrollment s student off = false) (c : String) :
    (register today student off s).2 =
        some (RegError.missingPrerequisite c) ↔
      firstUnmetPrereq s student o.course.required_prerequisites =
        some c := by
  have h1 : ¬ today < o.semester.registration_start := not_lt.mpr hstart
  have h2 : ¬ o.semester.add_drop_deadline < today := not_lt.mpr hend
  unfold register
  rw [hfind]
  cases hfu : firstUnmetPrereq s student o.course.required_prerequisites
      with
  | some code => simp [hact, h1, h2, hnotfull, hnodup, hfu]
  | none =>
    cases hrow : hasAnyEnrollmentRow s student off with
    | true => simp [hact, h1, h2, hnotfull, hnodup, hfu, hrow]
    | false => simp [hact, h1, h2, hnotfull, hnodup, hfu, hrow]

/-- Claim C5: once the earlier gates pass (offering found and active,
window open, seats free, no duplicate), registration is blocked with a
missing-prerequisite error exactly when some mandatory prerequisite of
the course has no completed, active enrollment of the student in the
prerequisite course whose grade meets the minimum grade threshold under
lexicographic comparison (a null or blank threshold accepts any completed
active enrollment); moreover the reported code is the one of the first
unmet mandatory prerequisite in list order, so checking stops there and
non-mandatory prerequisites never block. -/
theorem C5_prerequisite_gate (s : School) (today : Int)
    (student off : Nat) (o : CourseOffering)
    (hfind : findOff s.offerings off = some o)
    (hact : o.is_active = true)
    (hstart : o.semester.registration_start ≤ today)
    (hend : today ≤ o.semester.add_drop_deadline)
    (hnotfull : o.is_full = false)
    (hnodup : hasActiveEnrollment s student off = false) :
    ((∃ c, (register today student off s).2 =
        some (RegError.missingPrerequisite c)) ↔
      ∃ p ∈ o.course.required_prerequisites, p.is_mandatory = true ∧
        ¬ ∃ e ∈ s.enrollments, e.student = student ∧
          courseCodeOf s e = some p.prerequisite_code ∧
          e.status = "completed" ∧ e.is_active = true ∧
          (∀ mg, p.minimum_grade = some mg → mg ≠ "" →
            strLe e.grade mg = true)) ∧
    (∀ c, (register today student off s).2 =
        some (RegError.missingPrerequisite c) →
      ∃ p, List.find? (fun q => !prereqSatisfied s student q &&
          q.is_mandatory) o.course.required_prerequisites = some p ∧
        p.prerequisite_code = c) := by
  constructor
  · constructor
    · rintro ⟨c, hc⟩
      have hfu := (register_missing_iff s today student off o hfind hact
        hstart hend hnotfull hnodup c).mp hc
      have hex : ∃ c2, firstUnmetPrereq s student
          o.course.required_prerequisites = some c2 := ⟨c, hfu⟩
      rcases (firstUnmet_isSome_iff s student _).mp hex with
        ⟨p, hp, hm, hsat⟩
      refine ⟨p, hp, hm, ?_⟩
      intro hcontra
      have := (prereqSatisfied_iff s student p).mpr hcontra
      rw [hsat] at this
      exact Bool.false_ne_true this
    · rintro ⟨p, hp, hm, hno⟩
      have hsat : prereqSatisfied s student p = false := by
        cases hs : prereqSatisfied s student p with
        | false => rfl
        | true => exact absurd ((prereqSatisfied_iff s student p).mp hs) hno
      rcases (firstUnmet_isSome_iff s student
          o.course.required_prerequisites).mpr ⟨p, hp, hm, hsat⟩ with
        ⟨c, hc⟩
      exact ⟨c, (register_missing_iff s today student off o hfind hact
        hstart hend hnotfull hnodup c).mpr hc⟩
  · intro c hc
    have hfu := (register_missing_iff s today student off o hfind hact
      hstart hend hnotfull hnodup c).mp hc
    rw [firstUnmet_eq_find] at hfu
    rcases Option.map_eq_some'.mp hfu with ⟨p, hp, hpc⟩
    exact ⟨p, hp, hpc⟩

/-- Witness for claim C5 at a concrete state with one unmet mandatory
prerequisite. -/
theorem C5_witness :
    ((∃ c, (register 5 4 2 c5wState).2 =
        some (RegError.missingPrerequisite c)) ↔
      ∃ p ∈ c5wOff.course.required_prerequisites, p.is_mandatory = true ∧
        ¬ ∃ e ∈ c5wState.enrollments, e.student = 4 ∧
          courseCodeOf c5wState e = some p.prerequisite_code ∧
          e.status = "completed" ∧ e.is_active = true ∧
          (∀ mg, p.minimum_grade = some mg → mg ≠ "" →
            strLe e.grade mg = true)) ∧
    (∀ c, (register 5 4 2 c5wState).2 =
        some (RegError.missingPrerequisite c) →
      ∃ p, List.find? (fun q => !prereqSatisfied c5wState 4 q &&
          q.is_mandatory) c5wOff.course.required_prerequisites = some p ∧
        p.prerequisite_code = c) :=
  C5_prerequisite_gate c5wState 5 4 2 c5wOff (by decide) (by decide)
    (by decide) (by decide) (by decide) (by decide)

theorem pairRecords_append (l : List FinanceRecord) (stu : Nat)
    (pid : Option Nat) (r : FinanceRecord) :
    pairRecords (l ++ [r]) stu pid =
      pairRecords l stu pid ++
        (if (r.student == stu && r.program == pid) = true then [r]
         else []) := by
  unfold pairRecords
  rw [List.filter_append]
  congr 1
  cases hc : (r.student == stu && r.program == pid) <;>
    simp [List.filter, hc]

theorem financeRecordSave_some (stu : Nat) (p : Program) (t : String)
    (a : Int) (l : List FinanceRecord) :
    financeRecordSave stu (some p) t a l = Except.ok (l ++
      [⟨stu, some p.id, t, a,
        p.total_program_fee -
          (paidOf stu (some p.id) l + ownSigned t a)⟩]) := rfl

theorem paidOf_append_new (stu : Nat) (pid : Option Nat)
    (l : List FinanceRecord) (r : FinanceRecord)
    (hmatch : (r.student == stu && r.program == pid) = true) :
    paidOf stu pid (l ++ [r]) =
      paidOf stu pid l + priorSigned r.transaction_type r.amount := by
  unfold paidOf
  rw [pairRecords_append, if_pos hmatch]
  simp

theorem appendTxns_pairRecords (stu : Nat) (p : Program) :
    ∀ (txns : List (String × Int)) (l : List FinanceRecord),
    pairRecords (appendTxns stu p txns l) stu (some p.id) =
      pairRecords l stu (some p.id) ++
        specRecords stu p (paidOf stu (some p.id) l) txns := by
  intro txns
  induction txns with
  | nil => intro l; simp [appendTxns, specRecords]
  | cons ta rest ih =>
    intro l
    obtain ⟨t, a⟩ := ta
    have hstep : appendTxns stu p ((t, a) :: rest) l =
        appendTxns stu p rest (l ++
          [⟨stu, some p.id, t, a,
            p.total_program_fee -
              (paidOf stu (some p.id) l + ownSigned t a)⟩]) := by
      simp only [appendTxns, financeRecordSave_some]
    rw [hstep, ih]
    have hmatch : ((⟨stu, some p.id, t, a,
        p.total_program_fee - (paidOf stu (some p.id) l + ownSigned t a)⟩
          : FinanceRecord).student == stu &&
        (⟨stu, some p.id, t, a, p.total_program_fee -
          (paidOf stu (some p.id) l + ownSigned t a)⟩
          : FinanceRecord).program == some p.id) = true := by
      simp
    rw [pairRecords_append, if_pos hmatch,
      paidOf_append_new stu (some p.id) l _ hmatch]
    show (pairRecords l stu (some p.id) ++ [_]) ++ _ =
      pairRecords l stu (some p.id) ++ specRecords stu p _ ((t, a) :: rest)
    rw [List.append_assoc, List.singleton_append]
    rfl

theorem specRecords_balance (stu : Nat) (p : Program) :
    ∀ (txns : List (String × Int)) (paid : Int) (K : Nat),
    K < txns.length →
    (∀ ta ∈ txns, ta.1 ∈ validTxTypes) →
    ((specRecords stu p paid txns).map FinanceRecord.balance_after).get? K
      = some (p.total_program_fee -
          (paid + claimSignedSum (txns.take (K + 1)))) := by
  intro txns
  induction txns with
  | nil =>
    intro paid K hK hvalid
    simp at hK
  | cons ta rest ih =>
    intro paid K hK hvalid
    obtain ⟨t, a⟩ := ta
    have hvt : t ∈ validTxTypes := hvalid (t, a) (List.mem_cons_self _ _)
    have hprior_claim : priorSigned t a = claimSigned t a := by
      simp [validTxTypes] at hvt
      rcases hvt with rfl | rfl | rfl | rfl <;> rfl
    cases K with
    | zero =>
      show some (p.total_program_fee - (paid + ownSigned t a)) = _
      simp [claimSignedSum]
      rfl
    | succ K2 =>
      have hK2 : K2 < rest.length := by
        simpa using Nat.lt_of_succ_lt_succ hK
      have hvalid2 : ∀ ta2 ∈ rest, ta2.1 ∈ validTxTypes :=
        fun x hx => hvalid x (List.mem_cons_of_mem _ hx)
      have hrec := ih (paid + priorSigned t a) K2 hK2 hvalid2
      show ((specRecords stu p (paid + priorSigned t a) rest).map
          FinanceRecord.balance_after).get? K2 = _
      rw [hrec, hprior_claim]
      have htake : ((t, a) :: rest).take (K2 + 1 + 1) =
          (t, a) :: rest.take (K2 + 1) := rfl
      rw [htake]
      have hsum : claimSignedSum ((t, a) :: rest.take (K2 + 1)) =
          claimSigned t a + claimSignedSum (rest.take (K2 + 1)) := by
        simp [claimSignedSum]
      rw [hsum]
      congr 1
      ring

/-- Claim C2: starting from a ledger with no records for the pair,
after appending a sequence of finance transactions (each of one of the
four declared types) for one student and one program, the record at
position K carries balance_after equal to the total program fee minus the
signed sum of the amounts of the first K+1 transactions, where payment
and refund add to the paid total and fee and adjustment subtract; and the
total program fee is per-semester fees times duration plus the
registration fee. -/
theorem C2_running_balance (stu : Nat) (p : Program)
    (txns : List (String × Int)) (l0 : List FinanceRecord)
    (hempty : pairRecords l0 stu (some p.id) = [])
    (hvalid : ∀ ta ∈ txns, ta.1 ∈ validTxTypes)
    (K : Nat) (hK : K < txns.length) :
    ((pairRecords (appendTxns stu p txns l0) stu (some p.id)).map
        FinanceRecord.balance_after).get? K =
      some (p.total_program_fee - claimSignedSum (txns.take (K + 1))) ∧
    p.total_program_fee =
      (p.tuition_fee + p.exam_fee + p.other_fees) * p.duration +
        p.registration_fee := by
  constructor
  · have hpaid0 : paidOf stu (some p.id) l0 = 0 := by
      simp [paidOf, hempty]
    rw [appendTxns_pairRecords, hempty, hpaid0]
    simpa using specRecords_balance stu p txns 0 K hK hvalid
  · rfl

/-- Witness for claim C2: the worked example of the specification, a
payment of 500 then a fee of 200 against a 2250 total program fee, whose
second record carries balance 1950. -/
theorem C2_witness :
    ((pairRecords (appendTxns 1 c2Prog [("payment", 500), ("fee", 200)]
        []) 1 (some c2Prog.id)).map FinanceRecord.balance_after).get? 1 =
      some 1950 := by
  have h := (C2_running_balance 1 c2Prog [("payment", 500), ("fee", 200)]
    [] (by decide) (by decide) 1 (by decide)).1
  rw [h]
  decide

theorem sum_filterMap_eq_sum_map {α : Type} (f : α → Option Int)
    (g : α → Int) (h : ∀ x, g x = (f x).getD 0) :
    ∀ l : List α, (l.filterMap f).sum = (l.map g).sum := by
  intro l
  induction l with
  | nil => rfl
  | cons x tl ih =>
    cases hfx : f x with
    | none =>
      have hz : g x = 0 := by rw [h x, hfx]; rfl
      simp [List.filterMap_cons, hfx, ih, hz]
    | some v =>
      have hv : g x = v := by rw [h x, hfx]; rfl
      simp [List.filterMap_cons, hfx, ih, hv]

theorem amendedCredits_eq_credits (s : School) (student : Nat)
    (curriculum : List String) :
    amendedCreditsCompleted s student curriculum =
      credits_completed s student curriculum := by
  refine sum_filterMap_eq_sum_map _ _ ?_ s.enrollments
  intro e
  cases hfo : findOff s.offerings e.offering with
  | none => simp [creditContribution, hfo]
  | some o =>
    cases hce : e.credits_earned with
    | none =>
      simp [creditContribution, hfo, hce, pyOrInt]
      split <;> rfl
    | some n =>
      by_cases hn : n = 0 <;>
        (simp [creditContribution, hfo, hce, pyOrInt, hn];
          split <;> rfl)

/-- Counterexample to claim C8 as stated: a completed curriculum course
whose enrollment carries credits_earned equal to zero is counted with the
static course credits (the Python or-expression treats zero as absent),
so the computed percentage is not 100 times the claim-stated completed
credits over total credits. -/
theorem C8_counterexample :
    claimCreditsCompleted c8State 1 c8Prog.curriculum = 0 ∧
    credits_completed c8State 1 c8Prog.curriculum = 3 ∧
    c8Prog.total_credits = 3 ∧
    progress_percentage c8State 1 c8Prog ≠
      100 * (claimCreditsCompleted c8State 1 c8Prog.curriculum : ℚ) /
        (c8Prog.total_credits : ℚ) := by
  refine ⟨by decide, by decide, by decide, ?_⟩
  have h1 : credits_completed c8State 1 c8Prog.curriculum = 3 := by decide
  have h2 : claimCreditsCompleted c8State 1 c8Prog.curriculum = 0 := by
    decide
  have h3 : c8Prog.total_credits = 3 := by decide
  unfold progress_percentage
  rw [h1, h2, h3]
  norm_num

/-- Claim C8 as amended: progress_percentage is zero when total_credits
is not positive, and otherwise equals 100 times the completed credits
over total credits, where completed credits sum, over the enrollments of
the student with status completed whose course appears in the program
curriculum, credits_earned when present and nonzero and the static course
credits otherwise. -/
theorem C8_progress_percentage (s : School) (student : Nat)
    (p : Program) :
    progress_percentage s student p =
      if p.total_credits ≤ 0 then 0
      else 100 * (amendedCreditsCompleted s student p.curriculum : ℚ) /
        (p.total_credits : ℚ) := by
  rw [amendedCredits_eq_credits]
  unfold progress_percentage
  rcases lt_or_le 0 p.total_credits with h | h
  · rw [if_pos h, if_neg (not_le.mpr h)]
    ring
  · rw [if_neg (not_lt.mpr h), if_pos h]

theorem register_ok (t : Int) (st off0 : Nat) (s : School)
    (h : (register t st off0 s).2 = none) :
    ∃ o, findOff s.offerings off0 = some o ∧
      hasAnyEnrollmentRow s st off0 = false ∧
      register t st off0 s =
        (⟨updOff (addEnrolled 1) off0 s.offerings,
          s.enrollments ++ [⟨s.nextEnrollmentId, st, off0, "", true,
            "registered", none⟩],
          s.nextEnrollmentId + 1⟩, none) := by
  cases hfo : findOff s.offerings off0 with
  | none =>
    exfalso
    unfold register at h
    rw [hfo] at h
    simp at h
  | some o =>
    refine ⟨o, rfl, ?_⟩
    simp only [register, hfo] at h
    by_cases hA : (!o.is_active) = true
    · rw [if_pos hA] at h; simp at h
    · rw [if_neg hA] at h
      by_cases hB : t < o.semester.registration_start
      · rw [if_pos hB] at h; simp at h
      · rw [if_neg hB] at h
        by_cases hC : o.semester.add_drop_deadline < t
        · rw [if_pos hC] at h; simp at h
        · rw [if_neg hC] at h
          by_cases hD : o.is_full = true
          · rw [if_pos hD] at h; simp at h
          · rw [if_neg hD] at h
            by_cases hE : hasActiveEnrollment s st off0 = true
            · rw [if_pos hE] at h; simp at h
            · rw [if_neg hE] at h
              cases hfu : firstUnmetPrereq s st
                  o.course.required_prerequisites with
              | some c => rw [hfu] at h; simp at h
              | none =>
                rw [hfu] at h
                by_cases hrow : hasAnyEnrollmentRow s st off0 = true
                · rw [if_pos hrow] at h; simp at h
                · rw [if_neg hrow] at h
                  have hrow2 : hasAnyEnrollmentRow s st off0 = false := by
                    revert hrow
                    cases hasAnyEnrollmentRow s st off0 <;> simp
                  refine ⟨hrow2, ?_⟩
                  simp only [register, hfo]
                  rw [if_neg hA, if_neg hB, if_neg hC, if_neg hD,
                    if_neg hE, hfu, if_neg hrow]
                  rfl

theorem drop_ok (t : Int) (st eid : Nat) (s : School)
    (h : (drop t st eid s).2 = none) :
    ∃ e, findEnroll s.enrollments eid = some e ∧ e.student = st ∧
      ∃ o, findOff s.offerings e.offering = some o ∧
        ¬ o.semester.add_drop_deadline < t ∧
        drop t st eid s =
          (bumpEnrolled (-1) e.offering
            ⟨s.offerings, updEnroll markWithdrawn eid s.enrollments,
             s.nextEnrollmentId⟩, none) := by
  cases hfe : findEnroll s.enrollments eid with
  | none =>
    exfalso
    unfold drop at h
    rw [hfe] at h
    simp at h
  | some e =>
    refine ⟨e, rfl, ?_⟩
    simp only [drop, hfe] at h
    by_cases hst : e.student ≠ st
    · rw [if_pos hst] at h; simp at h
    · rw [if_neg hst] at h
      refine ⟨not_not.mp hst, ?_⟩
      cases hfo : findOff s.offerings e.offering with
      | none =>
        simp only [hfo] at h
        simp at h
      | some o =>
        simp only [hfo] at h
        refine ⟨o, rfl, ?_⟩
        by_cases hdl : o.semester.add_drop_deadline < t
        · rw [if_pos hdl] at h; simp at h
        · refine ⟨hdl, ?_⟩
          simp only [drop, hfe, hfo]
          rw [if_neg hst, if_neg hdl]

theorem countActiveL_append (l : List EnrollmentRow) (r : EnrollmentRow)
    (off : Nat) :
    countActiveL (l ++ [r]) off =
      countActiveL l off +
        (if (r.offering == off && r.is_active) = true then 1 else 0) := by
  unfold countActiveL
  rw [List.filter_append]
  cases hc : (r.offering == off && r.is_active) <;>
    simp [List.filter, hc]

theorem countActiveL_cons (x : EnrollmentRow) (tl : List EnrollmentRow)
    (off : Nat) :
    countActiveL (x :: tl) off =
      (if (x.offering == off && x.is_active) = true then 1 else 0) +
        countActiveL tl off := by
  unfold countActiveL
  simp only [List.filter_cons]
  cases hc : (x.offering == off && x.is_active) <;> (simp [hc]; try omega)

theorem countActiveL_updEnroll (l : List EnrollmentRow) (eid off : Nat)
    (e : EnrollmentRow) (hfind : findEnroll l eid = some e) :
    countActiveL l off =
      countActiveL (updEnroll markWithdrawn eid l) off +
        (if (e.offering == off && e.is_active) = true then 1 else 0) := by
  induction l with
  | nil => simp [findEnroll] at hfind
  | cons x tl ih =>
    by_cases hx : x.id = eid
    · have hex : e = x := by
        unfold findEnroll at hfind
        rw [if_pos hx] at hfind
        exact (Option.some.inj hfind).symm
      subst hex
      unfold updEnroll
      rw [if_pos hx]
      rw [countActiveL_cons, countActiveL_cons]
      have hmw : ((markWithdrawn e).offering == off &&
          (markWithdrawn e).is_active) = false := by
        simp [markWithdrawn]
      rw [hmw]
      cases hc : (e.offering == off && e.is_active) <;> (simp; try omega)
    · have hfind2 : findEnroll tl eid = some e := by
        unfold findEnroll at hfind
        rwa [if_neg hx] at hfind
      have hupd : updEnroll markWithdrawn eid (x :: tl) =
          x :: updEnroll markWithdrawn eid tl := by
        simp only [updEnroll]
        rw [if_neg hx]
      rw [hupd, countActiveL_cons, countActiveL_cons, ih hfind2]
      omega

theorem register_preserves_inv (t : Int) (st off0 off : Nat) (s : School)
    (h : (register t st off0 s).2 = none)
    (hinv : enrolledMatches s off = true) :
    enrolledMatches (register t st off0 s).1 off = true := by
  obtain ⟨o, hfo, hrow, heq⟩ := register_ok t st off0 s h
  rw [heq]
  unfold enrolledMatches at hinv ⊢
  unfold countActive at hinv ⊢
  show (match findOff (updOff (addEnrolled 1) off0 s.offerings) off with
    | some o2 => o2.enrolled ==
        (countActiveL (s.enrollments ++ [⟨s.nextEnrollmentId, st, off0,
          "", true, "registered", none⟩]) off : Int)
    | none => true) = true
  rw [findOff_updOff, countActiveL_append]
  by_cases hoo : off0 = off
  · subst hoo
    rw [if_pos rfl]
    simp only [hfo, Option.map_some']
    simp only [hfo] at hinv
    have hb : (addEnrolled 1 o).enrolled = o.enrolled + 1 := rfl
    rw [beq_iff_eq] at hinv ⊢
    rw [hb, hinv]
    simp
  · rw [if_neg hoo]
    have hcond : ((⟨s.nextEnrollmentId, st, off0, "", true, "registered",
        none⟩ : EnrollmentRow).offering == off &&
        (⟨s.nextEnrollmentId, st, off0, "", true, "registered",
          none⟩ : EnrollmentRow).is_active) = false := by
      have : (off0 == off) = false := beq_eq_false_iff_ne.mpr hoo
      simp [this]
    rw [hcond]
    simpa using hinv

theorem drop_preserves_inv (t : Int) (st eid off : Nat) (s : School)
    (h : (drop t st eid s).2 = none)
    (htarget : dropTargetsActive (Op.dropOp t st eid) s = true)
    (hinv : enrolledMatches s off = true) :
    enrolledMatches (drop t st eid s).1 off = true := by
  obtain ⟨e, hfe, hest, o, hfo, hdl, heq⟩ := drop_ok t st eid s h
  have heact : e.is_active = true := by
    simp only [dropTargetsActive, hfe] at htarget
    exact htarget
  rw [heq]
  unfold enrolledMatches at hinv ⊢
  unfold countActive at hinv ⊢
  have hcount := countActiveL_updEnroll s.enrollments eid off e hfe
  show (match findOff (updOff (addEnrolled (-1)) e.offering s.offerings)
      off with
    | some o2 => o2.enrolled ==
        (countActiveL (updEnroll markWithdrawn eid s.enrollments) off
          : Int)
    | none => true) = true
  rw [findOff_updOff]
  by_cases hoo : e.offering = off
  · subst hoo
    rw [if_pos rfl]
    simp only [hfo, Option.map_some']
    simp only [hfo] at hinv
    have hc : ((e.offering == e.offering) && e.is_active) = true := by
      simp [heact]
    rw [hc, if_pos rfl] at hcount
    have hb : (addEnrolled (-1) o).enrolled = o.enrolled + (-1) := rfl
    rw [beq_iff_eq] at hinv ⊢
    rw [hb, hinv, hcount]
    push_cast
    ring
  · rw [if_neg hoo]
    have hc : ((e.offering == off) && e.is_active) = false := by
      simp [beq_eq_false_iff_ne.mpr hoo]
    rw [hc, if_neg (by simp : ¬ (false = true))] at hcount
    cases hfo2 : findOff s.offerings off with
    | none => rfl
    | some o2 =>
      simp only [hfo2] at hinv ⊢
      rw [beq_iff_eq] at hinv ⊢
      rw [hinv, hcount]
      simp

/-- Counterexample to claim C1 as stated: from a state where the counter
matches the one active enrollment, dropping that same enrollment twice
before the deadline are two successful drop calls (the source never
checks that the row is still active), after which the counter is minus
one while the active count is zero. -/
theorem C1_counterexample :
    enrolledMatches c1State 1 = true ∧
    (runOps c1Ops c1State).2 = true ∧
    enrolledMatches (runOps c1Ops c1State).1 1 = false := by
  decide

/-- Claim C1 as amended: for every offering, after any sequence of
successful register and drop operations in which every drop targets an
enrollment that is still active at the moment of the drop, an offering
whose enrolled counter initially equals the number of active Enrollment
rows referencing it still has that property. -/
theorem C1_enrolled_matches_active_count (ops : List Op) (s : School)
    (off : Nat) (h0 : enrolledMatches s off = true)
    (hrun : (runOpsChecked ops s).2 = true) :
    enrolledMatches (runOpsChecked ops s).1 off = true := by
  induction ops generalizing s with
  | nil => simpa [runOpsChecked] using h0
  | cons op rest ih =>
    unfold runOpsChecked at hrun ⊢
    simp only [Bool.and_eq_true] at hrun
    obtain ⟨⟨hnone, htarget⟩, hrest⟩ := hrun
    have hnone2 : (applyOp op s).2 = none :=
      Option.isNone_iff_eq_none.mp hnone
    have hstep : enrolledMatches (applyOp op s).1 off = true := by
      cases op with
      | registerOp t st off0 =>
        exact register_preserves_inv t st off0 off s hnone2 h0
      | dropOp t st eid =>
        exact drop_preserves_inv t st eid off s hnone2 htarget h0
    exact ih (applyOp op s).1 hstep hrest

/-- Witness for the amended claim C1: a successful registration followed
by a drop of the still-active enrollment keeps the counter equal to the
active count. -/
theorem C1_witness :
    enrolledMatches c1wState 1 = true ∧
    (runOpsChecked c1wOps c1wState).2 = true ∧
    enrolledMatches (runOpsChecked c1wOps c1wState).1 1 = true :=
  ⟨by decide, by decide,
    C1_enrolled_matches_active_count c1wOps c1wState 1 (by decide)
      (by decide)⟩

end UniAdmin
